import Mathlib

/-
Shallow embedding of the dragon-bot game logic (src/bot.py, class DragonBot).

Modelling conventions:
* Python ints are modelled as `Int`.
* Python floats appearing in the source are modelled exactly as rationals:
  `int(x * 1.5)` becomes `3 * x / 2` and `int(x * 1.3)` becomes `13 * x / 10`
  (for the nonnegative damage values arising in battle, truncation toward
  zero coincides with this integer division); the fury threshold
  `dragon_health < max_health * 0.3` becomes `10 * dragon_health < 3 * max_health`;
  the starvation test `(now - last_fed).total_seconds() / 3600 > 360` becomes
  `lastFedSeconds > 1296000`.
* Randomness (`random.random()`, `random.randint`, `random.choice`) is
  modelled by explicit input parameters; validity predicates record the
  ranges that the randint calls of the source guarantee, where a proof needs them.
* Python dicts (inventories, the item and monster catalogs) are modelled as
  association lists with first-occurrence lookup.
-/

abbrev Inventory := List (String × Int)

/-- Dict read with default 0: `inventory[item]` is only read by the source
after a membership test or insertion, so absent keys never matter; reading
them as 0 keeps the function total. -/
def invGet : Inventory → String → Int
  | [], _ => 0
  | (k, v) :: rest, key => if k = key then v else invGet rest key

/-- Dict membership: `item in inventory`. -/
def invHas : Inventory → String → Bool
  | [], _ => false
  | (k, _) :: rest, key => k = key || invHas rest key

/-- Dict write: `inventory[item] = v`. -/
def invSet : Inventory → String → Int → Inventory
  | [], key, v => [(key, v)]
  | (k, w) :: rest, key, v =>
      if k = key then (key, v) :: rest else (k, w) :: invSet rest key v

/-- Dict delete: `del inventory[item]`. -/
def invDel : Inventory → String → Inventory
  | [], _ => []
  | (k, w) :: rest, key => if k = key then rest else (k, w) :: invDel rest key

/-- `if item not in inventory: inventory[item] = 0` then `inventory[item] += 1`
(bot.py lines 780-782 and 895-897). -/
def invAddOne (inv : Inventory) (key : String) : Inventory :=
  let inv1 := if invHas inv key then inv else invSet inv key 0
  invSet inv1 key (invGet inv1 key + 1)

/-- Static item catalog entry (self.items); description strings are
display-only and omitted. -/
structure Item where
  price : Int
  hunger_restore : Option Int := none
  health_restore : Option Int := none
  energy_restore : Option Int := none
  mood_boost : Option Int := none
  strength_boost : Option Int := none
  endurance_boost : Option Int := none
  intelligence_boost : Option Int := none
  charisma_boost : Option Int := none
  exp_boost : Option Int := none
  fire_mutation : Bool := false
  wisdom_mutation : Bool := false
  shadow_mutation : Bool := false
deriving DecidableEq

def lookupEntry {α : Type} : List (String × α) → String → Option α
  | [], _ => none
  | (k, v) :: rest, key => if k = key then some v else lookupEntry rest key

/-- self.items (bot.py lines 40-50). -/
def itemEntries : List (String × Item) :=
  [("хліб", { price := 5, hunger_restore := some 10 }),
   ("м_ясо", { price := 15, hunger_restore := some 25, strength_boost := some 1 }),
   ("медовуха", { price := 20, mood_boost := some 15 }),
   ("магічне_зілля", { price := 50, energy_restore := some 30, intelligence_boost := some 2 }),
   ("лікувальна_трава", { price := 30, health_restore := some 40 }),
   ("древній_кристал", { price := 100, exp_boost := some 50 }),
   ("вогняний_камінь", { price := 200, fire_mutation := true }),
   ("книга_мудрості", { price := 150, wisdom_mutation := true }),
   ("тіньовий_плащ", { price := 180, shadow_mutation := true })]

def items (name : String) : Option Item := lookupEntry itemEntries name

structure Monster where
  health : Int
  attack : Int
  reward : Int
  exp : Int
deriving DecidableEq

/-- self.monsters (bot.py lines 52-57). -/
def monsterEntries : List (String × Monster) :=
  [("лісовий_вовк", { health := 30, attack := 8, reward := 15, exp := 10 }),
   ("гобліновий_розбійник", { health := 45, attack := 12, reward := 25, exp := 20 }),
   ("темний_маг", { health := 60, attack := 15, reward := 40, exp := 35 }),
   ("древній_голем", { health := 100, attack := 20, reward := 70, exp := 50 })]

def monsters (name : String) : Option Monster := lookupEntry monsterEntries name

/-- self.dragon_stats; the two timestamps are handled as explicit elapsed-time
parameters where an operation reads them, and `mutations` is never read. -/
structure Dragon where
  level : Int
  exp : Int
  health : Int
  max_health : Int
  hunger : Int
  energy : Int
  mood : Int
  strength : Int
  endurance : Int
  intelligence : Int
  charisma : Int
  abilities : List String
  evolution_path : String
deriving DecidableEq

/-- Initial dragon state (bot.py lines 20-37). -/
def initialDragonStats : Dragon :=
  { level := 1, exp := 0, health := 100, max_health := 100, hunger := 50,
    energy := 100, mood := 70, strength := 10, endurance := 10,
    intelligence := 10, charisma := 10, abilities := ["Искорка"],
    evolution_path := "neutral" }

/-- Player record; doubles as the stored database row.  `last_daily = none`
models both a missing dict key (a fresh in-memory player dict has no
`last_daily` entry) and a NULL column, which compare unequal to any date
string exactly as in Python. -/
structure Player where
  username : String
  gold : Int
  level : Int
  exp : Int
  reputation : Int
  inventory : Inventory
  last_daily : Option String
  dragon_affection : Int
  pvp_wins : Int
  pvp_losses : Int
deriving DecidableEq

/-- The dict returned by get_player for a brand-new player
(bot.py lines 146-157); note it carries no last_daily key. -/
def newPlayer (username : String) : Player :=
  { username := username, gold := 100, level := 1, exp := 0, reputation := 0,
    inventory := [], last_daily := none, dragon_affection := 0,
    pvp_wins := 0, pvp_losses := 0 }

/-- get_player for an existing row returns every stored column
(bot.py lines 159-164). -/
def get_player (row : Player) : Player := row

/-- save_player (bot.py lines 166-179): the UPDATE statement writes
username, gold, level, exp, reputation, inventory, dragon_affection,
pvp_wins and pvp_losses, but NOT last_daily, so the stored row keeps
its previous last_daily value. -/
def save_player (p : Player) (row : Player) : Player :=
  { p with last_daily := row.last_daily }

/-- check_level_up (bot.py lines 391-411).  A single `if`, not a loop:
at most one level is gained per call. -/
def check_level_up (d : Dragon) : Dragon × Bool :=
  let required_exp := d.level * 100
  if d.exp ≥ required_exp then
    let d1 : Dragon :=
      { d with level := d.level + 1, exp := d.exp - required_exp,
               max_health := d.max_health + 20 }
    let d2 : Dragon :=
      { d1 with health := d1.max_health, strength := d1.strength + 2,
                endurance := d1.endurance + 2,
                intelligence := d1.intelligence + 1,
                charisma := d1.charisma + 1 }
    let d3 : Dragon :=
      if d2.level = 5 ∧ "Лють" ∉ d2.abilities then
        { d2 with abilities := d2.abilities ++ ["Лють"] }
      else if d2.level = 10 ∧ "Регенерація" ∉ d2.abilities then
        { d2 with abilities := d2.abilities ++ ["Регенерація"] }
      else d2
    (d3, true)
  else (d, false)

/-- The three `random.random() < 0.3` mutation rolls drawn inside
feed_dragon. -/
structure FeedRand where
  fireRoll : Bool
  wisdomRoll : Bool
  shadowRoll : Bool
deriving DecidableEq

inductive FeedStatus
  | itemNotOwned
  | unknownItem
  | ok
deriving DecidableEq

/-- The hunger_restore effect block of feed_dragon (bot.py lines 242-245). -/
def applyHungerRestore (it : Item) (d : Dragon) : Dragon :=
  match it.hunger_restore with
  | some v => { d with hunger := min 100 (d.hunger + v) }
  | none => d

/-- The health_restore effect block of feed_dragon (bot.py lines 247-251). -/
def applyHealthRestore (it : Item) (d : Dragon) : Dragon :=
  match it.health_restore with
  | some v => { d with health := min d.max_health (d.health + v) }
  | none => d

/-- The energy_restore effect block of feed_dragon (bot.py lines 253-256). -/
def applyEnergyRestore (it : Item) (d : Dragon) : Dragon :=
  match it.energy_restore with
  | some v => { d with energy := min 100 (d.energy + v) }
  | none => d

/-- The mood_boost effect block of feed_dragon (bot.py lines 258-261). -/
def applyMoodBoost (it : Item) (d : Dragon) : Dragon :=
  match it.mood_boost with
  | some v => { d with mood := min 100 (d.mood + v) }
  | none => d

/-- The stat-boost loop over strength, endurance, intelligence, charisma
(bot.py lines 264-269), unrolled in the iteration order of the source. -/
def applyStatBoosts (it : Item) (d : Dragon) : Dragon :=
  let d := match it.strength_boost with
           | some v => { d with strength := d.strength + v }
           | none => d
  let d := match it.endurance_boost with
           | some v => { d with endurance := d.endurance + v }
           | none => d
  let d := match it.intelligence_boost with
           | some v => { d with intelligence := d.intelligence + v }
           | none => d
  match it.charisma_boost with
  | some v => { d with charisma := d.charisma + v }
  | none => d

/-- The exp_boost effect block with its check_level_up call
(bot.py lines 272-276). -/
def applyExpBoost (it : Item) (d : Dragon) : Dragon :=
  match it.exp_boost with
  | some v => (check_level_up { d with exp := d.exp + v }).1
  | none => d

/-- The three mutation-trigger blocks (bot.py lines 279-299); each fires only
when the item declares the mutation, the 0.3 roll succeeds, and the ability
is not already present. -/
def applyMutations (it : Item) (r : FeedRand) (d : Dragon) : Dragon :=
  let d := if it.fire_mutation ∧ r.fireRoll ∧ "Вогняне дихання" ∉ d.abilities then
             { d with abilities := d.abilities ++ ["Вогняне дихання"],
                      evolution_path := "fire" }
           else d
  let d := if it.wisdom_mutation ∧ r.wisdomRoll ∧ "Телепатія" ∉ d.abilities then
             { d with abilities := d.abilities ++ ["Телепатія"],
                      evolution_path := "wisdom" }
           else d
  if it.shadow_mutation ∧ r.shadowRoll ∧ "Невидимість" ∉ d.abilities then
    { d with abilities := d.abilities ++ ["Невидимість"],
             evolution_path := "shadow" }
  else d

/-- feed_dragon (bot.py lines 225-321): ownership check, catalog check,
inventory decrement (deleting the key at count ≤ 0), the effect blocks in
source order, then affection +5.  On either failing check it returns before
any mutation, so player and dragon come back unchanged. -/
def feed_dragon (item : String) (p : Player) (d : Dragon) (r : FeedRand) :
    Player × Dragon × FeedStatus :=
  if invHas p.inventory item = false ∨ invGet p.inventory item ≤ 0 then
    (p, d, FeedStatus.itemNotOwned)
  else
    match items item with
    | none => (p, d, FeedStatus.unknownItem)
    | some it =>
      let inv1 := invSet p.inventory item (invGet p.inventory item - 1)
      let inv2 := if invGet inv1 item ≤ 0 then invDel inv1 item else inv1
      let d := applyHungerRestore it d
      let d := applyHealthRestore it d
      let d := applyEnergyRestore it d
      let d := applyMoodBoost it d
      let d := applyStatBoosts it d
      let d := applyExpBoost it d
      let d := applyMutations it r d
      let p := { p with inventory := inv2,
                        dragon_affection := p.dragon_affection + 5 }
      (p, d, FeedStatus.ok)

/-- Hunger decay over time (bot.py line 420). -/
def tickHungerDecay (d : Dragon) : Dragon :=
  { d with hunger := max 0 (d.hunger - 2) }

/-- Energy decay while the dragon is active (bot.py lines 423-424). -/
def tickEnergyDecay (d : Dragon) : Dragon :=
  if d.mood > 50 then { d with energy := max 0 (d.energy - 1) } else d

/-- Mood change from hunger (bot.py lines 427-430). -/
def tickMoodFromHunger (d : Dragon) : Dragon :=
  if d.hunger < 20 then { d with mood := max 0 (d.mood - 3) }
  else if d.hunger > 80 then { d with mood := min 100 (d.mood + 1) }
  else d

/-- Mood penalty from low energy (bot.py lines 432-433). -/
def tickMoodFromEnergy (d : Dragon) : Dragon :=
  if d.energy < 20 then { d with mood := max 0 (d.mood - 2) } else d

/-- Natural energy recovery when resting (bot.py lines 436-437). -/
def tickEnergyRecovery (d : Dragon) : Dragon :=
  if d.energy < 50 ∧ d.hunger > 30 then
    { d with energy := min 100 (d.energy + 5) }
  else d

/-- Health regeneration with the Регенерація ability (bot.py lines 440-441). -/
def tickRegen (d : Dragon) : Dragon :=
  if "Регенерація" ∈ d.abilities ∧ d.health < d.max_health then
    { d with health := min d.max_health (d.health + 2) }
  else d

/-- One pass of the background_tasks loop body before the starvation check
(bot.py lines 419-441), applying the statement blocks in source order. -/
def tickPreStarve (d : Dragon) : Dragon :=
  tickRegen (tickEnergyRecovery (tickMoodFromEnergy
    (tickMoodFromHunger (tickEnergyDecay (tickHungerDecay d)))))

/-- One full iteration of background_tasks (bot.py lines 413-452).
lastFedSeconds models `(now - last_fed).total_seconds()`; the source test
`last_fed_hours > 360` becomes `lastFedSeconds > 1296000`. -/
def background_tick (d : Dragon) (lastFedSeconds : Int) : Dragon :=
  let d := tickPreStarve d
  if lastFedSeconds > 1296000 then
    { d with health := max 1 (d.health - 10), mood := max 0 (d.mood - 10) }
  else d

/-- Per-round randomness in battle_monster: dragonRoll models
`randint(strength - 3, strength + 3)`, fireProc the `random() < 0.3` ability
roll, monsterRoll `randint(attack - 2, attack + 2)`, dodgeRoll
`randint(1, 100)`. -/
structure RoundRand where
  dragonRoll : Int
  fireProc : Bool
  monsterRoll : Int
  dodgeRoll : Int
deriving DecidableEq

/-- int(x * 1.5) for nonnegative x. -/
def mul3over2 (x : Int) : Int := 3 * x / 2

/-- int(x * 1.3) for nonnegative x (exact-rational model of the float). -/
def mul13over10 (x : Int) : Int := 13 * x / 10

/-- The battle while-loop (bot.py lines 645-675), returning the final
(monster health, working dragon health).  The random stream doubles as
fuel; with at least 10 entries it can never run dry before the 10-round
cap of the source stops the loop. -/
def battleLoop (abilities : List String) (maxHealth intelligence : Int) :
    Int → Int → Nat → List RoundRand → Int × Int
  | monsterHealth, dragonHealth, _, [] => (monsterHealth, dragonHealth)
  | monsterHealth, dragonHealth, rounds, r :: rest =>
    if monsterHealth > 0 ∧ dragonHealth > 0 ∧ rounds < 10 then
      let dragonDamage := r.dragonRoll
      let dragonDamage :=
        if "Вогняне дихання" ∈ abilities ∧ r.fireProc then mul3over2 dragonDamage
        else if "Лють" ∈ abilities ∧ 10 * dragonHealth < 3 * maxHealth then
          mul13over10 dragonDamage
        else dragonDamage
      let monsterHealth := monsterHealth - dragonDamage
      if monsterHealth ≤ 0 then (monsterHealth, dragonHealth)
      else
        let dragonHealth := if r.dodgeRoll ≤ intelligence then dragonHealth
                            else dragonHealth - r.monsterRoll
        battleLoop abilities maxHealth intelligence monsterHealth dragonHealth
          (rounds + 1) rest
    else (monsterHealth, dragonHealth)

/-- battle_monster (bot.py lines 637-700): run the round loop from the
stored health; any exit with working health > 0 (monster dead OR the
10-round cap) takes the victory branch: store the working health, add the
exp and gold rewards of the monster, +1 reputation, level-up check.  Otherwise
the defeat branch stores health 1 and touches nothing else.  `none` is the
unreachable unknown-monster case (callers choose from the catalog). -/
def battle_monster (monsterName : String) (p : Player) (d : Dragon)
    (rands : List RoundRand) : Option (Player × Dragon × Bool) :=
  match monsters monsterName with
  | none => none
  | some m =>
    let result := battleLoop d.abilities d.max_health d.intelligence
      m.health d.health 0 rands
    if result.2 > 0 then
      let d1 : Dragon := { d with health := result.2, exp := d.exp + m.exp }
      let p1 : Player := { p with gold := p.gold + m.reward,
                                  reputation := p.reputation + 1 }
      some (p1, (check_level_up d1).1, true)
    else
      some (p, { d with health := 1 }, false)

/-- Randomness drawn by explore_location: the `random() < 0.7` encounter
roll, `random.choice` over the monster keys, the battle stream, and the
`randint(10, 30)` treasure gold. -/
structure ExploreRand where
  encounter : Bool
  monsterName : String
  battleRands : List RoundRand
  treasureGold : Int
deriving DecidableEq

inductive ExpOutcome
  | tired
  | fought (victory : Bool)
  | treasure
deriving DecidableEq

/-- explore_location (bot.py lines 607-635).  The only guard is
`energy < 20`; there is no cooldown state anywhere in the function (nor a
last-quest timestamp anywhere in the program), and the 20 energy is
deducted before the outcome is rolled. -/
def explore_location (p : Player) (d : Dragon) (r : ExploreRand) :
    Option (Player × Dragon × ExpOutcome) :=
  if d.energy < 20 then some (p, d, ExpOutcome.tired)
  else
    let d1 : Dragon := { d with energy := d.energy - 20 }
    if r.encounter then
      match battle_monster r.monsterName p d1 r.battleRands with
      | none => none
      | some (p2, d2, victory) => some (p2, d2, ExpOutcome.fought victory)
    else
      let p2 : Player := { p with gold := p.gold + r.treasureGold }
      let d2 : Dragon := (check_level_up { d1 with exp := d1.exp + 5 }).1
      some (p2, d2, ExpOutcome.treasure)

inductive BuyStatus
  | unknownItem
  | insufficientGold
  | ok
deriving DecidableEq

/-- handle_purchase (bot.py lines 761-796): unknown item and insufficient
gold both return before any mutation; otherwise gold is debited by the
price and the inventory count incremented by one. -/
def handle_purchase (itemId : String) (p : Player) : Player × BuyStatus :=
  match items itemId with
  | none => (p, BuyStatus.unknownItem)
  | some it =>
    if p.gold < it.price then (p, BuyStatus.insufficientGold)
    else ({ p with gold := p.gold - it.price,
                   inventory := invAddOne p.inventory itemId }, BuyStatus.ok)

/-- handle_play (bot.py lines 818-845); moodBoost models randint(5, 15). -/
def handle_play (p : Player) (d : Dragon) (moodBoost : Int) : Player × Dragon :=
  if d.energy < 10 then (p, d)
  else
    let d := { d with energy := d.energy - 10 }
    let d := { d with mood := min 100 (d.mood + moodBoost) }
    ({ p with dragon_affection := p.dragon_affection + 3 }, d)

/-- handle_rest (bot.py lines 847-870). -/
def handle_rest (p : Player) (d : Dragon) : Player × Dragon :=
  let d := { d with energy := min 100 (d.energy + 30) }
  let d := if p.dragon_affection > 50 ∧ d.health < d.max_health then
             { d with health := d.health + min 10 (d.max_health - d.health) }
           else d
  (p, d)

/-- Praise branch of handle_message (bot.py lines 1006-1016). -/
def praiseMessage (p : Player) (d : Dragon) : Player × Dragon :=
  ({ p with dragon_affection := p.dragon_affection + 2 },
   { d with mood := min 100 (d.mood + 5) })

/-- Insult branch of handle_message (bot.py lines 1018-1028). -/
def insultMessage (p : Player) (d : Dragon) : Player × Dragon :=
  ({ p with dragon_affection := p.dragon_affection - 5 },
   { d with mood := max 0 (d.mood - 10) })

/-- Randomness drawn by handle_daily_reward: randint(20, 50) gold,
randint(10, 25) exp, the `random() < 0.2` bonus roll and the bonus-item
choice. -/
structure DailyRand where
  goldReward : Int
  expReward : Int
  bonusProc : Bool
  bonusItem : String
deriving DecidableEq

/-- handle_daily_reward (bot.py lines 872-914) acting on the loaded player
dict; the Bool is whether the claim was granted.  The save_player call of
the success branch is applied by the caller (dailyTwice below), matching
the handler. -/
def handle_daily_reward (today : String) (p : Player) (r : DailyRand) :
    Player × Bool :=
  if p.last_daily = some today then (p, false)
  else
    let p := { p with gold := p.gold + r.goldReward, exp := p.exp + r.expReward,
                      last_daily := some today }
    let p := if r.bonusProc then { p with inventory := invAddOne p.inventory r.bonusItem }
             else p
    (p, true)

/-- Two daily-reward callbacks on the same date against the stored row:
each callback reloads the player (handle_callback_query calls get_player,
bot.py line 708), runs handle_daily_reward, and on success persists with
save_player (bot.py line 909).  Returns the final stored row and the two
grant flags. -/
def dailyTwice (row : Player) (today : String) (r1 r2 : DailyRand) :
    Player × Bool × Bool :=
  let p1 := get_player row
  let res1 := handle_daily_reward today p1 r1
  let row1 := if res1.2 then save_player res1.1 row else row
  let p2 := get_player row1
  let res2 := handle_daily_reward today p2 r2
  let row2 := if res2.2 then save_player res2.1 row1 else row1
  (row2, res1.2, res2.2)

/-- The public operations of the claim C6 list, with their random draws. -/
inductive Op
  | feed (item : String) (r : FeedRand)
  | play (moodBoost : Int)
  | rest
  | explore (r : ExploreRand)
  | tick (lastFedSeconds : Int)
  | praise
  | insult
deriving DecidableEq

def applyOp (s : Player × Dragon) : Op → Player × Dragon
  | Op.feed item r => let res := feed_dragon item s.1 s.2 r; (res.1, res.2.1)
  | Op.play b => handle_play s.1 s.2 b
  | Op.rest => handle_rest s.1 s.2
  | Op.explore r =>
      match explore_location s.1 s.2 r with
      | none => s
      | some res => (res.1, res.2.1)
  | Op.tick secs => (s.1, background_tick s.2 secs)
  | Op.praise => praiseMessage s.1 s.2
  | Op.insult => insultMessage s.1 s.2

def runOps (s : Player × Dragon) : List Op → Player × Dragon
  | [] => s
  | op :: rest => runOps (applyOp s op) rest

/-- The range that `randint(attack - 2, attack + 2)` guarantees for the
damage roll of the monster. -/
def roundValid (m : Monster) (r : RoundRand) : Bool :=
  decide (m.attack - 2 ≤ r.monsterRoll) && decide (r.monsterRoll ≤ m.attack + 2)

/-- Ranges that the random draws of the source guarantee inside explore_location:
the chosen monster is a catalog key and the rolls are in randint range. -/
def exploreValid (r : ExploreRand) : Bool :=
  (match monsters r.monsterName with
   | none => false
   | some m => r.battleRands.all (roundValid m)) &&
  decide (10 ≤ r.treasureGold) && decide (r.treasureGold ≤ 30)

/-- Ranges that the random draws of the source guarantee for each operation. -/
def opValid : Op → Bool
  | Op.play b => decide (5 ≤ b) && decide (b ≤ 15)
  | Op.explore r => exploreValid r
  | _ => true

/-- The bounded-stat invariant of the spec: hunger, energy, mood in
[0, 100] and health in [0, max_health] (with the dynamic bound itself
positive). -/
def Bounded (d : Dragon) : Prop :=
  0 ≤ d.hunger ∧ d.hunger ≤ 100 ∧ 0 ≤ d.energy ∧ d.energy ≤ 100 ∧
  0 ≤ d.mood ∧ d.mood ≤ 100 ∧ 0 ≤ d.health ∧ d.health ≤ d.max_health ∧
  1 ≤ d.max_health

instance : DecidablePred Bounded := fun d => by
  unfold Bounded
  infer_instance

/-- Modelled from the spec: the level-up rule "subtracting the threshold
from experience (carrying remainder forward, looping if a single gain spans
multiple levels)", with the linear threshold level * 100 the code uses.
Defined only to compare against check_level_up; fuel bounds the loop. -/
def levelLoopSpec : Nat → Int → Int → Int × Int
  | 0, level, e => (level, e)
  | fuel + 1, level, e =>
    if e ≥ level * 100 then levelLoopSpec fuel (level + 1) (e - level * 100)
    else (level, e)

/-- Dragon state and single-round random stream that lose the concrete
battle below: health 5, one wolf hit of 10 lands (dodge roll 100 beats
intelligence 10). -/
def defeatDragon : Dragon := { initialDragonStats with health := 5 }

def defeatRands : List RoundRand :=
  [{ dragonRoll := 7, fireProc := false, monsterRoll := 10, dodgeRoll := 100 }]

def capDragon : Dragon := { initialDragonStats with intelligence := 100 }

/-- Ten rounds in which the dragon deals 7 each round (70 total, below the
100 health of the golem) and dodges every counterattack. -/
def capRands : List RoundRand :=
  List.replicate 10 { dragonRoll := 7, fireProc := false, monsterRoll := 20, dodgeRoll := 1 }

def exploreTreasureRand : ExploreRand :=
  { encounter := false, monsterName := "лісовий_вовк", battleRands := [],
    treasureGold := 15 }


def optNonneg : Option Int → Bool
  | none => true
  | some v => decide (0 ≤ v)

/-- The restore/boost amounts a catalog item declares for the four bounded
stats are nonnegative. -/
def itemWFb (it : Item) : Bool :=
  optNonneg it.hunger_restore && optNonneg it.health_restore &&
  optNonneg it.energy_restore && optNonneg it.mood_boost


def sampleTreasureExplore : ExploreRand :=
  { encounter := false, monsterName := "лісовий_вовк", battleRands := [],
    treasureGold := 15 }

/-- Five battle rounds: the wolf dies on the fifth hit while every
counterattack lands. -/
def sampleBattleExplore : ExploreRand :=
  { encounter := true, monsterName := "лісовий_вовк",
    battleRands := List.replicate 5
      { dragonRoll := 7, fireProc := false, monsterRoll := 8, dodgeRoll := 100 },
    treasureGold := 10 }

/-- A sample run touching every operation kind, battles included. -/
def boundedOpsSample : List Op :=
  [Op.play 10, Op.rest, Op.tick 1300000,
   Op.explore sampleTreasureExplore, Op.explore sampleBattleExplore,
   Op.praise, Op.insult,
   Op.feed "хліб" { fireRoll := false, wisdomRoll := false, shadowRoll := false }]

theorem invGet_eq_zero_of_not_has (inv : Inventory) (k : String)
    (h : invHas inv k = false) : invGet inv k = 0 := by
  induction inv with
  | nil => rfl
  | cons e rest ih =>
    obtain ⟨a, b⟩ := e
    simp only [invHas, Bool.or_eq_false_iff, decide_eq_false_iff_not] at h
    simp only [invGet, if_neg h.1]
    exact ih h.2

theorem invGet_invSet_self (inv : Inventory) (k : String) (v : Int) :
    invGet (invSet inv k v) k = v := by
  induction inv with
  | nil => simp [invSet, invGet]
  | cons e rest ih =>
    obtain ⟨a, b⟩ := e
    by_cases hak : a = k
    · simp [invSet, invGet, hak]
    · simp [invSet, invGet, hak, ih]

theorem invGet_invSet_other (inv : Inventory) (k other : String) (v : Int)
    (h : other ≠ k) : invGet (invSet inv k v) other = invGet inv other := by
  induction inv with
  | nil =>
    simp only [invSet, invGet]
    rw [if_neg (fun hh : k = other => h hh.symm)]
  | cons e rest ih =>
    obtain ⟨a, b⟩ := e
    by_cases hak : a = k
    · subst hak
      have hne : ¬ a = other := fun hh => h hh.symm
      simp only [invSet, if_pos rfl, invGet, if_neg hne]
    · simp only [invSet, if_neg hak, invGet]
      by_cases hao : a = other
      · simp only [if_pos hao]
      · simp only [if_neg hao, ih]

theorem invGet_invAddOne_self (inv : Inventory) (k : String) :
    invGet (invAddOne inv k) k = invGet inv k + 1 := by
  unfold invAddOne
  by_cases h : invHas inv k
  · rw [if_pos h, invGet_invSet_self]
  · have hf : invHas inv k = false := by revert h; cases invHas inv k <;> simp
    rw [if_neg h, invGet_invSet_self, invGet_invSet_self,
      invGet_eq_zero_of_not_has inv k hf]

theorem invGet_invAddOne_other (inv : Inventory) (k other : String)
    (h : other ≠ k) : invGet (invAddOne inv k) other = invGet inv other := by
  unfold invAddOne
  by_cases hh : invHas inv k
  · rw [if_pos hh, invGet_invSet_other _ _ _ _ h]
  · rw [if_neg hh, invGet_invSet_other _ _ _ _ h, invGet_invSet_other _ _ _ _ h]

theorem lookupEntry_pred {α : Type} (pred : α → Bool) :
    ∀ (entries : List (String × α)) (name : String) (v : α),
      entries.all (fun e => pred e.2) = true →
      lookupEntry entries name = some v → pred v = true := by
  intro entries
  induction entries with
  | nil => intro name v _ h; cases h
  | cons e rest ih =>
    intro name v hall h
    simp only [List.all_cons, Bool.and_eq_true] at hall
    unfold lookupEntry at h
    split at h
    · injection h with h
      rw [← h]
      exact hall.1
    · exact ih name v hall.2 h

theorem items_wf (name : String) (it : Item) (h : items name = some it) :
    itemWFb it = true :=
  lookupEntry_pred itemWFb itemEntries name it (by decide) h

theorem monsters_attack (name : String) (m : Monster)
    (h : monsters name = some m) : 2 ≤ m.attack := by
  have := lookupEntry_pred (fun m => decide (2 ≤ m.attack)) monsterEntries name m
    (by decide) h
  exact of_decide_eq_true this

theorem bounded_check_level_up (d : Dragon) (hb : Bounded d) :
    Bounded (check_level_up d).1 := by
  obtain ⟨h1, h2, h3, h4, h5, h6, h7, h8, h9⟩ := hb
  unfold check_level_up
  dsimp only
  split
  · split
    · simp only [Bounded]
      omega
    · split
      · simp only [Bounded]
        omega
      · simp only [Bounded]
        omega
  · simp only [Bounded]
    omega

theorem bounded_applyHungerRestore (it : Item) (d : Dragon)
    (hw : optNonneg it.hunger_restore = true) (hb : Bounded d) :
    Bounded (applyHungerRestore it d) := by
  obtain ⟨h1, h2, h3, h4, h5, h6, h7, h8, h9⟩ := hb
  unfold applyHungerRestore
  cases ho : it.hunger_restore with
  | none => exact ⟨h1, h2, h3, h4, h5, h6, h7, h8, h9⟩
  | some v =>
    rw [ho] at hw
    simp only [optNonneg, decide_eq_true_eq] at hw
    simp only [Bounded]
    omega

theorem bounded_applyHealthRestore (it : Item) (d : Dragon)
    (hw : optNonneg it.health_restore = true) (hb : Bounded d) :
    Bounded (applyHealthRestore it d) := by
  obtain ⟨h1, h2, h3, h4, h5, h6, h7, h8, h9⟩ := hb
  unfold applyHealthRestore
  cases ho : it.health_restore with
  | none => exact ⟨h1, h2, h3, h4, h5, h6, h7, h8, h9⟩
  | some v =>
    rw [ho] at hw
    simp only [optNonneg, decide_eq_true_eq] at hw
    simp only [Bounded]
    omega

theorem bounded_applyEnergyRestore (it : Item) (d : Dragon)
    (hw : optNonneg it.energy_restore = true) (hb : Bounded d) :
    Bounded (applyEnergyRestore it d) := by
  obtain ⟨h1, h2, h3, h4, h5, h6, h7, h8, h9⟩ := hb
  unfold applyEnergyRestore
  cases ho : it.energy_restore with
  | none => exact ⟨h1, h2, h3, h4, h5, h6, h7, h8, h9⟩
  | some v =>
    rw [ho] at hw
    simp only [optNonneg, decide_eq_true_eq] at hw
    simp only [Bounded]
    omega

theorem bounded_applyMoodBoost (it : Item) (d : Dragon)
    (hw : optNonneg it.mood_boost = true) (hb : Bounded d) :
    Bounded (applyMoodBoost it d) := by
  obtain ⟨h1, h2, h3, h4, h5, h6, h7, h8, h9⟩ := hb
  unfold applyMoodBoost
  cases ho : it.mood_boost with
  | none => exact ⟨h1, h2, h3, h4, h5, h6, h7, h8, h9⟩
  | some v =>
    rw [ho] at hw
    simp only [optNonneg, decide_eq_true_eq] at hw
    simp only [Bounded]
    omega

theorem bounded_applyStatBoosts (it : Item) (d : Dragon) (hb : Bounded d) :
    Bounded (applyStatBoosts it d) := by
  obtain ⟨h1, h2, h3, h4, h5, h6, h7, h8, h9⟩ := hb
  unfold applyStatBoosts
  dsimp only
  rcases it.strength_boost with - | v <;> rcases it.endurance_boost with - | w <;>
    rcases it.intelligence_boost with - | x <;> rcases it.charisma_boost with - | y <;>
    (simp only [Bounded]; omega)

theorem bounded_applyExpBoost (it : Item) (d : Dragon) (hb : Bounded d) :
    Bounded (applyExpBoost it d) := by
  unfold applyExpBoost
  cases ho : it.exp_boost with
  | none => exact hb
  | some v =>
    dsimp only
    apply bounded_check_level_up
    obtain ⟨h1, h2, h3, h4, h5, h6, h7, h8, h9⟩ := hb
    simp only [Bounded]
    omega

theorem bounded_applyMutations (it : Item) (r : FeedRand) (d : Dragon)
    (hb : Bounded d) : Bounded (applyMutations it r d) := by
  obtain ⟨h1, h2, h3, h4, h5, h6, h7, h8, h9⟩ := hb
  unfold applyMutations
  dsimp only
  split_ifs <;> (simp only [Bounded]; omega)

theorem bounded_feed (item : String) (p : Player) (d : Dragon) (r : FeedRand)
    (hb : Bounded d) : Bounded (feed_dragon item p d r).2.1 := by
  unfold feed_dragon
  split
  · exact hb
  · cases hit : items item with
    | none => exact hb
    | some it =>
      dsimp only
      have hwf := items_wf item it hit
      simp only [itemWFb, Bool.and_eq_true] at hwf
      exact bounded_applyMutations it r _
        (bounded_applyExpBoost it _
          (bounded_applyStatBoosts it _
            (bounded_applyMoodBoost it _ hwf.2
              (bounded_applyEnergyRestore it _ hwf.1.2
                (bounded_applyHealthRestore it _ hwf.1.1.2
                  (bounded_applyHungerRestore it _ hwf.1.1.1 hb))))))

theorem battleLoop_dragon_le (abilities : List String) (mh intel : Int) :
    ∀ (rands : List RoundRand) (monsterHealth dragonHealth : Int) (rounds : Nat),
      (∀ x ∈ rands, 0 ≤ x.monsterRoll) →
      (battleLoop abilities mh intel monsterHealth dragonHealth rounds rands).2
        ≤ dragonHealth := by
  intro rands
  induction rands with
  | nil =>
    intro monsterHealth dragonHealth rounds _
    unfold battleLoop
    exact le_refl _
  | cons r rest ih =>
    intro monsterHealth dragonHealth rounds hr
    have h0 : 0 ≤ r.monsterRoll := hr r (List.mem_cons_self r rest)
    have hrest : ∀ x ∈ rest, 0 ≤ x.monsterRoll :=
      fun x hx => hr x (List.mem_cons_of_mem r hx)
    unfold battleLoop
    dsimp only
    split
    · repeat' split
      all_goals first
        | exact le_refl _
        | exact le_trans (ih _ _ _ hrest) (le_refl _)
        | exact le_trans (ih _ _ _ hrest) (by omega)
    · exact le_refl _

theorem bounded_battle_monster (monsterName : String) (m : Monster)
    (p p' : Player) (d d' : Dragon) (rands : List RoundRand) (v : Bool)
    (hm : monsters monsterName = some m)
    (hr : ∀ x ∈ rands, 0 ≤ x.monsterRoll)
    (hb : Bounded d)
    (h : battle_monster monsterName p d rands = some (p', d', v)) :
    Bounded d' := by
  have hle := battleLoop_dragon_le d.abilities d.max_health d.intelligence
    rands m.health d.health 0 hr
  obtain ⟨h1, h2, h3, h4, h5, h6, h7, h8, h9⟩ := hb
  unfold battle_monster at h
  rw [hm] at h
  dsimp only at h
  split at h
  · simp only [Option.some.injEq, Prod.mk.injEq] at h
    obtain ⟨-, hd, -⟩ := h
    rw [← hd]
    apply bounded_check_level_up
    simp only [Bounded]
    refine ⟨h1, h2, h3, h4, h5, h6, ?_, ?_, h9⟩ <;> dsimp only <;> omega
  · simp only [Option.some.injEq, Prod.mk.injEq] at h
    obtain ⟨-, hd, -⟩ := h
    rw [← hd]
    simp only [Bounded]
    omega

theorem bounded_explore (p : Player) (d : Dragon) (r : ExploreRand)
    (hv : exploreValid r = true) (hb : Bounded d) :
    ∀ p' d' o, explore_location p d r = some (p', d', o) → Bounded d' := by
  intro p' d' o h
  unfold explore_location at h
  split at h
  · simp only [Option.some.injEq, Prod.mk.injEq] at h
    obtain ⟨-, hd, -⟩ := h
    rw [← hd]
    exact hb
  · next henergy =>
    obtain ⟨h1, h2, h3, h4, h5, h6, h7, h8, h9⟩ := hb
    have hb20 : Bounded { d with energy := d.energy - 20 } := by
      simp only [Bounded]
      omega
    dsimp only at h
    simp only [exploreValid, Bool.and_eq_true, decide_eq_true_eq] at hv
    obtain ⟨⟨hmatch, hgold1⟩, hgold2⟩ := hv
    split at h
    · cases hmn : monsters r.monsterName with
      | none =>
        rw [hmn] at hmatch
        exact (Bool.false_ne_true hmatch).elim
      | some m =>
        rw [hmn] at hmatch
        dsimp only at hmatch
        have hrolls : ∀ x ∈ r.battleRands, 0 ≤ x.monsterRoll := by
          intro x hx
          rw [List.all_eq_true] at hmatch
          have hrv := hmatch x hx
          simp only [roundValid, Bool.and_eq_true, decide_eq_true_eq] at hrv
          have hatk := monsters_attack r.monsterName m hmn
          omega
        cases hbm : battle_monster r.monsterName p { d with energy := d.energy - 20 }
            r.battleRands with
        | none => rw [hbm] at h; cases h
        | some res =>
          obtain ⟨p2, d2, vv⟩ := res
          rw [hbm] at h
          dsimp only at h
          simp only [Option.some.injEq, Prod.mk.injEq] at h
          obtain ⟨-, hd, -⟩ := h
          rw [← hd]
          exact bounded_battle_monster r.monsterName m p p2
            { d with energy := d.energy - 20 } d2 r.battleRands vv hmn hrolls hb20 hbm
    · simp only [Option.some.injEq, Prod.mk.injEq] at h
      obtain ⟨-, hd, -⟩ := h
      rw [← hd]
      apply bounded_check_level_up
      simp only [Bounded]
      omega

theorem bounded_tickHungerDecay (d : Dragon) (hb : Bounded d) :
    Bounded (tickHungerDecay d) := by
  obtain ⟨h1, h2, h3, h4, h5, h6, h7, h8, h9⟩ := hb
  simp only [tickHungerDecay, Bounded]
  omega

theorem bounded_tickEnergyDecay (d : Dragon) (hb : Bounded d) :
    Bounded (tickEnergyDecay d) := by
  obtain ⟨h1, h2, h3, h4, h5, h6, h7, h8, h9⟩ := hb
  unfold tickEnergyDecay
  split_ifs <;> (simp only [Bounded]; omega)

theorem bounded_tickMoodFromHunger (d : Dragon) (hb : Bounded d) :
    Bounded (tickMoodFromHunger d) := by
  obtain ⟨h1, h2, h3, h4, h5, h6, h7, h8, h9⟩ := hb
  unfold tickMoodFromHunger
  split_ifs <;> (simp only [Bounded]; omega)

theorem bounded_tickMoodFromEnergy (d : Dragon) (hb : Bounded d) :
    Bounded (tickMoodFromEnergy d) := by
  obtain ⟨h1, h2, h3, h4, h5, h6, h7, h8, h9⟩ := hb
  unfold tickMoodFromEnergy
  split_ifs <;> (simp only [Bounded]; omega)

theorem bounded_tickEnergyRecovery (d : Dragon) (hb : Bounded d) :
    Bounded (tickEnergyRecovery d) := by
  obtain ⟨h1, h2, h3, h4, h5, h6, h7, h8, h9⟩ := hb
  unfold tickEnergyRecovery
  split_ifs <;> (simp only [Bounded]; omega)

theorem bounded_tickRegen (d : Dragon) (hb : Bounded d) :
    Bounded (tickRegen d) := by
  obtain ⟨h1, h2, h3, h4, h5, h6, h7, h8, h9⟩ := hb
  unfold tickRegen
  split_ifs <;> (simp only [Bounded]; omega)

theorem bounded_tickPreStarve (d : Dragon) (hb : Bounded d) :
    Bounded (tickPreStarve d) :=
  bounded_tickRegen _ (bounded_tickEnergyRecovery _ (bounded_tickMoodFromEnergy _
    (bounded_tickMoodFromHunger _ (bounded_tickEnergyDecay _
      (bounded_tickHungerDecay _ hb)))))

theorem bounded_background_tick (d : Dragon) (s : Int) (hb : Bounded d) :
    Bounded (background_tick d s) := by
  obtain ⟨g1, g2, g3, g4, g5, g6, g7, g8, g9⟩ := bounded_tickPreStarve d hb
  unfold background_tick
  dsimp only
  split_ifs <;> (simp only [Bounded]; omega)

theorem bounded_handle_play (p : Player) (d : Dragon) (b : Int)
    (hv : 5 ≤ b) (hb : Bounded d) : Bounded (handle_play p d b).2 := by
  obtain ⟨h1, h2, h3, h4, h5, h6, h7, h8, h9⟩ := hb
  unfold handle_play
  split_ifs <;> (simp only [Bounded]; omega)

theorem bounded_handle_rest (p : Player) (d : Dragon) (hb : Bounded d) :
    Bounded (handle_rest p d).2 := by
  obtain ⟨h1, h2, h3, h4, h5, h6, h7, h8, h9⟩ := hb
  unfold handle_rest
  dsimp only
  split_ifs <;> (simp only [Bounded]; omega)

theorem bounded_praise (p : Player) (d : Dragon) (hb : Bounded d) :
    Bounded (praiseMessage p d).2 := by
  obtain ⟨h1, h2, h3, h4, h5, h6, h7, h8, h9⟩ := hb
  unfold praiseMessage
  simp only [Bounded]
  omega

theorem bounded_insult (p : Player) (d : Dragon) (hb : Bounded d) :
    Bounded (insultMessage p d).2 := by
  obtain ⟨h1, h2, h3, h4, h5, h6, h7, h8, h9⟩ := hb
  unfold insultMessage
  simp only [Bounded]
  omega

theorem bounded_applyOp (s : Player × Dragon) (op : Op)
    (hv : opValid op = true) (hb : Bounded s.2) :
    Bounded (applyOp s op).2 := by
  cases op with
  | feed item r => exact bounded_feed item s.1 s.2 r hb
  | play b =>
    simp only [opValid, Bool.and_eq_true, decide_eq_true_eq] at hv
    exact bounded_handle_play s.1 s.2 b hv.1 hb
  | rest => exact bounded_handle_rest s.1 s.2 hb
  | explore r =>
    unfold applyOp
    dsimp only
    cases he : explore_location s.1 s.2 r with
    | none => exact hb
    | some res =>
      obtain ⟨p', d', o⟩ := res
      exact bounded_explore s.1 s.2 r hv hb p' d' o he
  | tick secs => exact bounded_background_tick s.2 secs hb
  | praise => exact bounded_praise s.1 s.2 hb
  | insult => exact bounded_insult s.1 s.2 hb

theorem bounded_runOps (s : Player × Dragon) (ops : List Op)
    (hb : Bounded s.2) (h : ops.all opValid = true) :
    Bounded (runOps s ops).2 := by
  induction ops generalizing s with
  | nil => exact hb
  | cons op rest ih =>
    simp only [List.all_cons, Bool.and_eq_true] at h
    exact ih (applyOp s op) (bounded_applyOp s op h.1 hb) h.2

/-- C6: after any sequence of the public operations (feed, play, rest,
explore with its battles, background maintenance tick, free-text
praise/insult interactions) whose random draws respect the randint
ranges of the source, the bounded stats of the dragon state reached from the
initial state satisfy 0 ≤ hunger ≤ 100, 0 ≤ energy ≤ 100, 0 ≤ mood ≤ 100
and 0 ≤ health ≤ max_health. -/
theorem stats_bounded_after_ops (p : Player) (ops : List Op)
    (h : ops.all opValid = true) :
    Bounded (runOps (p, initialDragonStats) ops).2 :=
  bounded_runOps (p, initialDragonStats) ops
    (show Bounded initialDragonStats by decide) h

theorem stats_bounded_after_ops_witness :
    boundedOpsSample.all opValid = true ∧
    Bounded (runOps (newPlayer "u", initialDragonStats) boundedOpsSample).2 :=
  ⟨by decide, stats_bounded_after_ops (newPlayer "u") boundedOpsSample (by decide)⟩

/-- C3: feeding the dragon an item that is absent from the inventory of
the player (or present with count at most zero) returns ItemNotOwned and
leaves the player (gold, inventory, affection) and every dragon stat
unchanged. -/
theorem feed_unowned_unchanged (item : String) (p : Player) (d : Dragon)
    (r : FeedRand)
    (h : invHas p.inventory item = false ∨ invGet p.inventory item ≤ 0) :
    feed_dragon item p d r = (p, d, FeedStatus.itemNotOwned) := by
  unfold feed_dragon
  rw [if_pos h]

theorem feed_unowned_unchanged_witness :
    (invHas (newPlayer "u").inventory "хліб" = false ∨
      invGet (newPlayer "u").inventory "хліб" ≤ 0) ∧
    feed_dragon "хліб" (newPlayer "u") initialDragonStats
      { fireRoll := false, wisdomRoll := false, shadowRoll := false }
      = (newPlayer "u", initialDragonStats, FeedStatus.itemNotOwned) :=
  ⟨Or.inl rfl,
   feed_unowned_unchanged "хліб" (newPlayer "u") initialDragonStats
     { fireRoll := false, wisdomRoll := false, shadowRoll := false }
     (Or.inl rfl)⟩

/-- C4: buying a catalog item with gold below the price fails with
InsufficientGold and mutates neither gold nor inventory; with sufficient
gold the purchase debits exactly the price and increments the inventory
count of that item by exactly one, leaving every other count unchanged. -/
theorem purchase_gold_inventory (itemId : String) (p : Player) (it : Item)
    (hit : items itemId = some it) :
    (p.gold < it.price → handle_purchase itemId p = (p, BuyStatus.insufficientGold)) ∧
    (it.price ≤ p.gold →
      (handle_purchase itemId p).2 = BuyStatus.ok ∧
      (handle_purchase itemId p).1.gold = p.gold - it.price ∧
      invGet (handle_purchase itemId p).1.inventory itemId
        = invGet p.inventory itemId + 1 ∧
      ∀ other, other ≠ itemId →
        invGet (handle_purchase itemId p).1.inventory other
          = invGet p.inventory other) := by
  unfold handle_purchase
  rw [hit]
  dsimp only
  constructor
  · intro hlt
    rw [if_pos hlt]
  · intro hge
    rw [if_neg (not_lt.mpr hge)]
    exact ⟨rfl, rfl, invGet_invAddOne_self _ _,
      fun other ho => invGet_invAddOne_other _ _ _ ho⟩

theorem purchase_gold_inventory_witness :
    items "хліб" = some { price := 5, hunger_restore := some 10 } ∧
    ((5 : Int) ≤ (newPlayer "u").gold →
      (handle_purchase "хліб" (newPlayer "u")).2 = BuyStatus.ok ∧
      (handle_purchase "хліб" (newPlayer "u")).1.gold = (newPlayer "u").gold - 5 ∧
      invGet (handle_purchase "хліб" (newPlayer "u")).1.inventory "хліб"
        = invGet (newPlayer "u").inventory "хліб" + 1 ∧
      ∀ other, other ≠ "хліб" →
        invGet (handle_purchase "хліб" (newPlayer "u")).1.inventory other
          = invGet (newPlayer "u").inventory other) :=
  ⟨by decide,
   (purchase_gold_inventory "хліб" (newPlayer "u")
     { price := 5, hunger_restore := some 10 } (by decide)).2⟩

/-- C2 counterexample: granting 300 experience to the level-1 initial
dragon and running check_level_up once yields level 2 with 200 leftover
experience, which still meets the level-2 threshold 200, whereas the
claimed repeated-subtraction rule yields level 3 with 0 leftover.  The
level-up logic does not loop within a single grant. -/
theorem levelup_not_looped :
    (check_level_up { initialDragonStats with exp := 300 }).1.level = 2 ∧
    (check_level_up { initialDragonStats with exp := 300 }).1.exp = 200 ∧
    ¬ ((check_level_up { initialDragonStats with exp := 300 }).1.exp <
        (check_level_up { initialDragonStats with exp := 300 }).1.level * 100) ∧
    levelLoopSpec 10 1 300 = (3, 0) := by decide

/-- C2 amended: a single experience grant followed by the level-up check
applies at most one level-up: when experience meets the current threshold
level * 100, the level rises by exactly one and that one threshold is
subtracted; the remainder may still meet the next threshold (further
level-ups happen only on later checks). -/
theorem check_level_up_single_step (d : Dragon) (h : d.level * 100 ≤ d.exp) :
    (check_level_up d).1.level = d.level + 1 ∧
    (check_level_up d).1.exp = d.exp - d.level * 100 ∧
    (check_level_up d).2 = true := by
  unfold check_level_up
  rw [if_pos (show d.exp ≥ d.level * 100 from h)]
  refine ⟨?_, ?_, rfl⟩ <;> (dsimp only; split <;> first | rfl | (split <;> rfl))

theorem check_level_up_single_step_witness :
    (1 : Int) * 100 ≤ 150 ∧
    ((check_level_up { initialDragonStats with exp := 150 }).1.level
        = { initialDragonStats with exp := 150 }.level + 1 ∧
     (check_level_up { initialDragonStats with exp := 150 }).1.exp
        = ({ initialDragonStats with exp := 150 } : Dragon).exp
          - { initialDragonStats with exp := 150 }.level * 100 ∧
     (check_level_up { initialDragonStats with exp := 150 }).2 = true) :=
  ⟨by decide, check_level_up_single_step { initialDragonStats with exp := 150 } (by decide)⟩

/-- C7: a fired level-up adds exactly 20 max_health, sets health to the new
max_health (full heal), adds +2 strength, +2 endurance, +1 intelligence and
+1 charisma, and the designated abilities (Лють at level 5, Регенерація at
level 10) are never duplicated: a level-up leaves their multiplicity at most
the maximum of 1 and what it already was. -/
theorem level_up_growth_abilities (d : Dragon) (h : d.level * 100 ≤ d.exp) :
    (check_level_up d).1.max_health = d.max_health + 20 ∧
    (check_level_up d).1.health = d.max_health + 20 ∧
    (check_level_up d).1.strength = d.strength + 2 ∧
    (check_level_up d).1.endurance = d.endurance + 2 ∧
    (check_level_up d).1.intelligence = d.intelligence + 1 ∧
    (check_level_up d).1.charisma = d.charisma + 1 ∧
    (check_level_up d).1.abilities.count "Лють" ≤ max 1 (d.abilities.count "Лють") ∧
    (check_level_up d).1.abilities.count "Регенерація"
      ≤ max 1 (d.abilities.count "Регенерація") := by
  unfold check_level_up
  rw [if_pos (show d.exp ≥ d.level * 100 from h)]
  dsimp only
  split
  case isTrue hc =>
    refine ⟨rfl, rfl, rfl, rfl, rfl, rfl, ?_, ?_⟩
    · rw [List.count_append, List.count_eq_zero_of_not_mem hc.2,
        (by decide : (["Лють"] : List String).count "Лють" = 1)]
      omega
    · rw [List.count_append,
        (by decide : (["Лють"] : List String).count "Регенерація" = 0)]
      omega
  case isFalse hc1 =>
    split
    case isTrue hc2 =>
      refine ⟨rfl, rfl, rfl, rfl, rfl, rfl, ?_, ?_⟩
      · rw [List.count_append,
          (by decide : (["Регенерація"] : List String).count "Лють" = 0)]
        omega
      · rw [List.count_append, List.count_eq_zero_of_not_mem hc2.2,
          (by decide : (["Регенерація"] : List String).count "Регенерація" = 1)]
        omega
    case isFalse hc2 =>
      exact ⟨rfl, rfl, rfl, rfl, rfl, rfl, le_max_right 1 _, le_max_right 1 _⟩

theorem level_up_growth_abilities_witness :
    ({ initialDragonStats with level := 4, exp := 400 } : Dragon).level * 100
      ≤ ({ initialDragonStats with level := 4, exp := 400 } : Dragon).exp ∧
    ((check_level_up { initialDragonStats with level := 4, exp := 400 }).1.max_health
        = ({ initialDragonStats with level := 4, exp := 400 } : Dragon).max_health + 20 ∧
     (check_level_up { initialDragonStats with level := 4, exp := 400 }).1.health
        = ({ initialDragonStats with level := 4, exp := 400 } : Dragon).max_health + 20 ∧
     (check_level_up { initialDragonStats with level := 4, exp := 400 }).1.strength
        = ({ initialDragonStats with level := 4, exp := 400 } : Dragon).strength + 2 ∧
     (check_level_up { initialDragonStats with level := 4, exp := 400 }).1.endurance
        = ({ initialDragonStats with level := 4, exp := 400 } : Dragon).endurance + 2 ∧
     (check_level_up { initialDragonStats with level := 4, exp := 400 }).1.intelligence
        = ({ initialDragonStats with level := 4, exp := 400 } : Dragon).intelligence + 1 ∧
     (check_level_up { initialDragonStats with level := 4, exp := 400 }).1.charisma
        = ({ initialDragonStats with level := 4, exp := 400 } : Dragon).charisma + 1 ∧
     (check_level_up { initialDragonStats with level := 4, exp := 400 }).1.abilities.count "Лють"
        ≤ max 1 (({ initialDragonStats with level := 4, exp := 400 } : Dragon).abilities.count "Лють") ∧
     (check_level_up { initialDragonStats with level := 4, exp := 400 }).1.abilities.count "Регенерація"
        ≤ max 1 (({ initialDragonStats with level := 4, exp := 400 } : Dragon).abilities.count "Регенерація")) :=
  ⟨by decide,
   level_up_growth_abilities { initialDragonStats with level := 4, exp := 400 } (by decide)⟩

/-- C8: one maintenance tick applies the starvation penalty exactly when
time-since-last-fed exceeds 360 hours (1296000 seconds): health drops by 10
floored at 1 and mood by 10 floored at 0, applied after the ordinary decay
and regeneration steps, so this path never brings health below 1; at or
below the threshold the tick applies no starvation penalty at all. -/
theorem starvation_floor (d : Dragon) (s : Int) :
    (1296000 < s →
      background_tick d s =
        { tickPreStarve d with
            health := max 1 ((tickPreStarve d).health - 10),
            mood := max 0 ((tickPreStarve d).mood - 10) } ∧
      1 ≤ (background_tick d s).health) ∧
    (s ≤ 1296000 → background_tick d s = tickPreStarve d) := by
  constructor
  · intro hgt
    constructor
    · unfold background_tick
      rw [if_pos (show s > 1296000 from hgt)]
    · unfold background_tick
      rw [if_pos (show s > 1296000 from hgt)]
      dsimp only
      omega
  · intro hle
    unfold background_tick
    rw [if_neg (by omega)]

theorem starvation_floor_witness :
    ((1296000 : Int) < 1300000 ∧
      1 ≤ (background_tick initialDragonStats 1300000).health) ∧
    ((0 : Int) ≤ 1296000 ∧
      background_tick initialDragonStats 0 = tickPreStarve initialDragonStats) :=
  ⟨⟨by decide, ((starvation_floor initialDragonStats 1300000).1 (by decide)).2⟩,
   ⟨by decide, (starvation_floor initialDragonStats 0).2 (by decide)⟩⟩

/-- C1 (code bug): with a freshly created player row, two daily-reward
callbacks on the same date 2026-10-12 BOTH succeed and both pay out,
because the UPDATE of save_player omits the last_daily column: the stamp
written into the in-memory dict by the first claim is lost when the second
callback reloads the record, so the stored row ends with 160 gold, 30 exp
and a still-unstamped (NULL) last-claim date, instead of the second claim
failing with AlreadyClaimedToday. -/
theorem daily_reload_double_claim :
    dailyTwice (newPlayer "u") "2026-10-12"
      { goldReward := 30, expReward := 15, bonusProc := false, bonusItem := "хліб" }
      { goldReward := 30, expReward := 15, bonusProc := false, bonusItem := "хліб" }
      = ({ newPlayer "u" with gold := 160, exp := 30 }, true, true) ∧
    (dailyTwice (newPlayer "u") "2026-10-12"
      { goldReward := 30, expReward := 15, bonusProc := false, bonusItem := "хліб" }
      { goldReward := 30, expReward := 15, bonusProc := false, bonusItem := "хліб" }).1.last_daily
      = none := by decide

/-- C9 counterexample: this concrete battle ends in defeat (victory flag
false) yet the dragon mood is exactly unchanged (70 before, 70 after)
and health is stored as exactly 1: the defeat branch applies no mood
penalty, contrary to the claim. -/
theorem defeat_no_mood_penalty :
    battle_monster "лісовий_вовк" (newPlayer "u") defeatDragon defeatRands
      = some (newPlayer "u", { defeatDragon with health := 1 }, false) ∧
    defeatDragon.mood = 70 ∧
    ({ defeatDragon with health := 1 } : Dragon).mood = 70 := by decide

/-- C9 amended: whenever a monster battle ends in defeat, the player record
is fully unchanged (in particular no gold and no reputation) and the stored
dragon state is exactly the pre-battle state with health set to 1 — hence
health is at least 1 and at most the pre-battle health whenever that was at
least 1, mood is unchanged (no mood penalty), and no experience is added. -/
theorem battle_defeat_state (monsterName : String) (p p' : Player)
    (d d' : Dragon) (rands : List RoundRand)
    (h : battle_monster monsterName p d rands = some (p', d', false)) :
    p' = p ∧ d' = { d with health := 1 } ∧ d'.health = 1 ∧
    d'.mood = d.mood ∧ d'.exp = d.exp ∧
    p'.gold = p.gold ∧ p'.reputation = p.reputation := by
  unfold battle_monster at h
  cases hm : monsters monsterName with
  | none => rw [hm] at h; cases h
  | some m =>
    rw [hm] at h
    dsimp only at h
    split at h
    · simp only [Option.some.injEq, Prod.mk.injEq] at h
      exact absurd h.2.2 (by decide)
    · simp only [Option.some.injEq, Prod.mk.injEq] at h
      obtain ⟨hp, hd, -⟩ := h
      subst hp
      subst hd
      exact ⟨rfl, rfl, rfl, rfl, rfl, rfl, rfl⟩

theorem battle_defeat_state_witness :
    battle_monster "лісовий_вовк" (newPlayer "u") defeatDragon defeatRands
      = some (newPlayer "u", { defeatDragon with health := 1 }, false) ∧
    (({ defeatDragon with health := 1 } : Dragon).health = 1 ∧
      ({ defeatDragon with health := 1 } : Dragon).mood = defeatDragon.mood ∧
      (newPlayer "u").gold = (newPlayer "u").gold) := by
  have h : battle_monster "лісовий_вовк" (newPlayer "u") defeatDragon defeatRands
      = some (newPlayer "u", { defeatDragon with health := 1 }, false) := by decide
  have hh := battle_defeat_state "лісовий_вовк" (newPlayer "u") (newPlayer "u")
    defeatDragon { defeatDragon with health := 1 } defeatRands h
  exact ⟨h, hh.2.2.1, hh.2.2.2.1, rfl⟩

/-- C10: if the battle loop exits with both the working health of the dragon
and the health of the monster still positive — which, given at least ten rounds of
randomness, happens exactly when the 10-round cap is reached — the outcome
is resolved as a full victory: the complete gold and experience
rewards are granted, reputation is incremented, the working health is
stored and the level-up check run, exactly as in the monster-killed case. -/
theorem battle_round_cap_victory (monsterName : String) (m : Monster)
    (p : Player) (d : Dragon) (rands : List RoundRand)
    (hm : monsters monsterName = some m)
    (hlen : 10 ≤ rands.length)
    (hmon : 0 < (battleLoop d.abilities d.max_health d.intelligence
        m.health d.health 0 rands).1)
    (hdrag : 0 < (battleLoop d.abilities d.max_health d.intelligence
        m.health d.health 0 rands).2) :
    battle_monster monsterName p d rands =
      some ({ p with gold := p.gold + m.reward, reputation := p.reputation + 1 },
            (check_level_up { d with
              health := (battleLoop d.abilities d.max_health d.intelligence
                m.health d.health 0 rands).2,
              exp := d.exp + m.exp }).1,
            true) := by
  unfold battle_monster
  rw [hm]
  dsimp only
  rw [if_pos hdrag]

theorem battle_round_cap_victory_witness :
    monsters "древній_голем" = some { health := 100, attack := 20, reward := 70, exp := 50 } ∧
    10 ≤ capRands.length ∧
    0 < (battleLoop capDragon.abilities capDragon.max_health capDragon.intelligence
      100 capDragon.health 0 capRands).1 ∧
    0 < (battleLoop capDragon.abilities capDragon.max_health capDragon.intelligence
      100 capDragon.health 0 capRands).2 ∧
    battle_monster "древній_голем" (newPlayer "u") capDragon capRands =
      some ({ newPlayer "u" with gold := 170, reputation := 1 },
            { capDragon with exp := 50 }, true) := by
  refine ⟨by decide, by decide, by decide, by decide, ?_⟩
  have h := battle_round_cap_victory "древній_голем"
    { health := 100, attack := 20, reward := 70, exp := 50 }
    (newPlayer "u") capDragon capRands (by decide) (by decide) (by decide) (by decide)
  exact h.trans (by decide)

theorem check_level_up_energy (d : Dragon) : (check_level_up d).1.energy = d.energy := by
  unfold check_level_up
  dsimp only
  split
  · split
    · rfl
    · split <;> rfl
  · rfl

theorem battle_monster_energy (monsterName : String) (p p' : Player)
    (d d' : Dragon) (rands : List RoundRand) (v : Bool)
    (h : battle_monster monsterName p d rands = some (p', d', v)) :
    d'.energy = d.energy := by
  unfold battle_monster at h
  cases hm : monsters monsterName with
  | none => rw [hm] at h; cases h
  | some m =>
    rw [hm] at h
    dsimp only at h
    split at h
    · simp only [Option.some.injEq, Prod.mk.injEq] at h
      obtain ⟨-, hd, -⟩ := h
      rw [← hd, check_level_up_energy]
    · simp only [Option.some.injEq, Prod.mk.injEq] at h
      obtain ⟨-, hd, -⟩ := h
      rw [← hd]

/-- C5 counterexample: two explore actions run back to back, with no time
passing between them, both succeed (second outcome is again a treasure
find, not any rejection): explore_location gates only on energy and keeps
no cooldown state at all, so there is no OnCooldown failure to hit. -/
theorem explore_no_cooldown :
    explore_location (newPlayer "u") initialDragonStats exploreTreasureRand
      = some ({ newPlayer "u" with gold := 115 },
              { initialDragonStats with energy := 80, exp := 5 },
              ExpOutcome.treasure) ∧
    explore_location { newPlayer "u" with gold := 115 }
        { initialDragonStats with energy := 80, exp := 5 } exploreTreasureRand
      = some ({ newPlayer "u" with gold := 130 },
              { initialDragonStats with energy := 60, exp := 10 },
              ExpOutcome.treasure) := by decide

/-- C5 amended: the explore action is gated only by energy: with energy
below the fixed cost 20 it fails (dragon too tired) without touching any
state, and there is no cooldown; whenever it executes, the 20 energy cost
is consumed unconditionally — the final energy is exactly the old energy
minus 20 for every outcome (treasure, battle victory or battle defeat),
not only on success. -/
theorem explore_energy_only (p : Player) (d : Dragon) (r : ExploreRand) :
    (d.energy < 20 → explore_location p d r = some (p, d, ExpOutcome.tired)) ∧
    (20 ≤ d.energy → ∀ p' d' o, explore_location p d r = some (p', d', o) →
      o ≠ ExpOutcome.tired ∧ d'.energy = d.energy - 20) := by
  constructor
  · intro hlt
    unfold explore_location
    rw [if_pos hlt]
  · intro hge p' d' o h
    unfold explore_location at h
    rw [if_neg (not_lt.mpr hge)] at h
    dsimp only at h
    by_cases henc : r.encounter
    · rw [if_pos henc] at h
      cases hb : battle_monster r.monsterName p { d with energy := d.energy - 20 }
          r.battleRands with
      | none => rw [hb] at h; cases h
      | some res =>
        obtain ⟨p2, d2, v⟩ := res
        rw [hb] at h
        dsimp only at h
        simp only [Option.some.injEq, Prod.mk.injEq] at h
        obtain ⟨-, hd, ho⟩ := h
        have he := battle_monster_energy _ _ _ _ _ _ _ hb
        constructor
        · intro hcontra
          rw [← ho] at hcontra
          cases hcontra
        · rw [← hd, he]
    · rw [if_neg henc] at h
      simp only [Option.some.injEq, Prod.mk.injEq] at h
      obtain ⟨-, hd, ho⟩ := h
      constructor
      · intro hcontra
        rw [← ho] at hcontra
        cases hcontra
      · rw [← hd, check_level_up_energy]

theorem explore_energy_only_witness :
    (20 : Int) ≤ initialDragonStats.energy ∧
    (ExpOutcome.treasure ≠ ExpOutcome.tired ∧
      ({ initialDragonStats with energy := 80, exp := 5 } : Dragon).energy
        = initialDragonStats.energy - 20) :=
  ⟨by decide,
   (explore_energy_only (newPlayer "u") initialDragonStats exploreTreasureRand).2
     (by decide) { newPlayer "u" with gold := 115 }
     { initialDragonStats with energy := 80, exp := 5 } ExpOutcome.treasure
     (by decide)⟩
